import Mathlib

/-!
Verification of the Bitcoin exclusivity calculator
(src/src/BitcoinCalculator.js).

The calculation layer of the program is a handful of pure functions over
JavaScript numbers.  Every number reaching them is produced by exact
decimal literals, additions, multiplications and divisions whose results
are passed through an explicit rounding step before they are compared or
displayed, so we embed the numeric domain as the rationals.  Math.round
on non-negative values is floor of x plus one half (half toward positive
infinity), and Number.prototype.toFixed rounds the scaled value the same
way; both are modelled by jsRound below.
-/

/-- MAX_BITCOIN_SUPPLY constant of the source. -/
def MAX_BITCOIN_SUPPLY : ℚ := 21000000

/-- LARGEST_KNOWN_HOLDING constant of the source. -/
def LARGEST_KNOWN_HOLDING : ℚ := 1100000

/-- TOTAL_ADDRESSES constant of the source. -/
def TOTAL_ADDRESSES : ℚ := 100000000

/-- GLOBAL_POPULATION constant of the source. -/
def GLOBAL_POPULATION : ℚ := 8000000000

/-- A market-cap scenario record, mirroring the entries of the
MARKET_SCENARIOS object of the source. -/
structure MarketScenario where
  cap : ℚ
  name : String
deriving DecidableEq, Repr

/-- The four MARKET_SCENARIOS records, in declaration order. -/
def MARKET_SCENARIOS : List MarketScenario :=
  [⟨1000000000000, "Current Bitcoin Market Cap"⟩,
   ⟨13500000000000, "Gold Market Cap"⟩,
   ⟨80000000000000, "All Currencies"⟩,
   ⟨500000000000000, "Global Wealth"⟩]

/-- JavaScript Math.round on non-negative values: round to the nearest
integer, half toward positive infinity. -/
def jsRound (x : ℚ) : ℤ := ⌊x + 1/2⌋

/-- calculateExclusivity of the source.  The population mode isGlobal is
the showGlobal boolean of the component (true picks GLOBAL_POPULATION as
the base, false picks TOTAL_ADDRESSES).  Returns none where the source
returns null. -/
def calculateExclusivity (btc : ℚ) (isGlobal : Bool) : Option ℤ :=
  if btc > MAX_BITCOIN_SUPPLY then none
  else
    let base : ℚ := if isGlobal then GLOBAL_POPULATION else TOTAL_ADDRESSES
    if btc ≤ 0 then some (jsRound base)
    else if btc < 0.1 then some (jsRound (base * 0.08))
    else if btc < 1 then some (jsRound (base * 0.015))
    else if btc < 10 then some (jsRound (base * 0.0025))
    else if btc < 100 then some (jsRound (base * 0.000003))
    else if btc < 1000 then
      some (jsRound (if isGlobal then base * 0.0000005 else 1678))
    else if btc < 10000 then
      some (jsRound (if isGlobal then base * 0.0000001 else 85))
    else if btc < 100000 then
      some (jsRound (if isGlobal then base * 0.00000001 else 5))
    else if btc ≤ LARGEST_KNOWN_HOLDING then
      some (jsRound (if isGlobal then base * 0.0000000001 else 1))
    else some 0

/-- The band table of section 4.2 of the spec, stated in the words of the
spec for comparison with calculateExclusivity: eleven bands evaluated in
order, first match wins, each giving the round-to-nearest-integer of a
fraction of the base population or a fixed count. -/
def specRarityEstimate (amount : ℚ) (mode : Bool) : ℤ :=
  let base : ℚ := if mode then GLOBAL_POPULATION else TOTAL_ADDRESSES
  if amount ≤ 0 then jsRound (1 * base)
  else if amount < 0.1 then jsRound (0.08 * base)
  else if amount < 1 then jsRound (0.015 * base)
  else if amount < 10 then jsRound (0.0025 * base)
  else if amount < 100 then jsRound (0.000003 * base)
  else if amount < 1000 then (if mode then jsRound (0.0000005 * base) else 1678)
  else if amount < 10000 then (if mode then jsRound (0.0000001 * base) else 85)
  else if amount < 100000 then (if mode then jsRound (0.00000001 * base) else 5)
  else if amount ≤ LARGEST_KNOWN_HOLDING then
    (if mode then jsRound (0.0000000001 * base) else 1)
  else 0

/-- calculateValueInScenario of the source. -/
def calculateValueInScenario (btc : ℚ) (marketCap : ℚ) : ℚ :=
  let pricePerBTC := marketCap / MAX_BITCOIN_SUPPLY
  btc * pricePerBTC

/-- Render a natural number below 100 with two digits, zero padded, as
toFixed produces for the fractional part. -/
def padTwo (k : ℕ) : String :=
  if k < 10 then "0" ++ toString k else toString k

/-- Number.prototype.toFixed with two fraction digits, modelled on
non-negative values: scale by 100, round half up, and print the quotient
and the zero-padded remainder. -/
def jsToFixedTwo (x : ℚ) : String :=
  let n : ℕ := (jsRound (x * 100)).toNat
  toString (n / 100) ++ "." ++ padTwo (n % 100)

/-- Insert a comma after every three characters of a reversed digit
list; reversing the result groups the digits of the original number in
threes from the right. -/
def insertCommas : List Char → List Char
  | [] => []
  | [a] => [a]
  | [a, b] => [a, b]
  | [a, b, c] => [a, b, c]
  | a :: b :: c :: rest => a :: b :: c :: ',' :: insertCommas rest

/-- The decimal digits of a natural number grouped in threes by commas,
as toLocaleString renders integers in the default en-US locale. -/
def groupNat (n : ℕ) : String :=
  String.mk (insertCommas (toString n).data.reverse).reverse

/-- Render a natural number below 1000 with three digits, zero padded. -/
def padThree (k : ℕ) : String :=
  if k < 10 then "00" ++ toString k
  else if k < 100 then "0" ++ toString k
  else toString k

/-- Drop trailing zero characters of a fraction-digit string. -/
def trimZeros (s : String) : String :=
  String.mk (s.data.reverse.dropWhile (fun c => c = '0')).reverse

/-- Number.prototype.toLocaleString in the default en-US locale,
modelled on non-negative values: the integer part grouped in threes by
commas, followed by at most three fraction digits (rounded half away
from zero, trailing zeros omitted). -/
def jsToLocaleString (x : ℚ) : String :=
  let n : ℕ := (jsRound (x * 1000)).toNat
  let i := n / 1000
  let f := n % 1000
  if f = 0 then groupNat i
  else groupNat i ++ "." ++ trimZeros (padThree f)

/-- formatUSD of the source. -/
def formatUSD (amount : ℚ) : String :=
  if amount ≥ 1000000000000 then "$" ++ jsToFixedTwo (amount / 1000000000000) ++ "T"
  else if amount ≥ 1000000000 then "$" ++ jsToFixedTwo (amount / 1000000000) ++ "B"
  else if amount ≥ 1000000 then "$" ++ jsToFixedTwo (amount / 1000000) ++ "M"
  else "$" ++ jsToLocaleString amount

/-- The error message of handleChange for amounts above the maximum
supply. -/
def exceedsSupplyMsg : String :=
  "Invalid amount: exceeds maximum Bitcoin supply of " ++ groupNat 21000000 ++ " BTC"

/-- The advisory message of handleChange for amounts above the largest
known holding. -/
def exceedsLargestMsg : String :=
  "No known addresses hold more than " ++ groupNat 1100000 ++ " BTC"

/-- The validation-and-compute logic of handleChange once parseFloat has
produced a number: the error banner (none for the empty string) and the
result state it leaves behind.  The isNaN branch of the source is the
unrepresentable parse failure and is outside this numeric model. -/
def handleChange (btc : ℚ) (showGlobal : Bool) : Option String × Option ℤ :=
  if 0 ≤ btc then
    if btc > MAX_BITCOIN_SUPPLY then (some exceedsSupplyMsg, none)
    else if btc > LARGEST_KNOWN_HOLDING then (some exceedsLargestMsg, some 0)
    else (none, calculateExclusivity btc showGlobal)
  else (none, none)

/-- Evaluation lemma: in GlobalPopulation mode every band value of
calculateExclusivity is the stated integer. -/
lemma exclusivity_global_eval (a : ℚ) (hmax : ¬ a > MAX_BITCOIN_SUPPLY) :
    calculateExclusivity a true =
      if a ≤ 0 then some 8000000000
      else if a < 0.1 then some 640000000
      else if a < 1 then some 120000000
      else if a < 10 then some 20000000
      else if a < 100 then some 24000
      else if a < 1000 then some 4000
      else if a < 10000 then some 800
      else if a < 100000 then some 80
      else if a ≤ LARGEST_KNOWN_HOLDING then some 1
      else some 0 := by
  have j0 : jsRound GLOBAL_POPULATION = 8000000000 := by
    norm_num [jsRound, GLOBAL_POPULATION]
  have j1 : jsRound (GLOBAL_POPULATION * 0.08) = 640000000 := by
    norm_num [jsRound, GLOBAL_POPULATION]
  have j2 : jsRound (GLOBAL_POPULATION * 0.015) = 120000000 := by
    norm_num [jsRound, GLOBAL_POPULATION]
  have j3 : jsRound (GLOBAL_POPULATION * 0.0025) = 20000000 := by
    norm_num [jsRound, GLOBAL_POPULATION]
  have j4 : jsRound (GLOBAL_POPULATION * 0.000003) = 24000 := by
    norm_num [jsRound, GLOBAL_POPULATION]
  have j5 : jsRound (GLOBAL_POPULATION * 0.0000005) = 4000 := by
    norm_num [jsRound, GLOBAL_POPULATION]
  have j6 : jsRound (GLOBAL_POPULATION * 0.0000001) = 800 := by
    norm_num [jsRound, GLOBAL_POPULATION]
  have j7 : jsRound (GLOBAL_POPULATION * 0.00000001) = 80 := by
    norm_num [jsRound, GLOBAL_POPULATION]
  have j8 : jsRound (GLOBAL_POPULATION * 0.0000000001) = 1 := by
    norm_num [jsRound, GLOBAL_POPULATION]
  simp only [calculateExclusivity, if_neg hmax, if_true, j0, j1, j2, j3, j4,
    j5, j6, j7, j8]

/-- Evaluation lemma: in CurrentAddresses mode every band value of
calculateExclusivity is the stated integer. -/
lemma exclusivity_current_eval (a : ℚ) (hmax : ¬ a > MAX_BITCOIN_SUPPLY) :
    calculateExclusivity a false =
      if a ≤ 0 then some 100000000
      else if a < 0.1 then some 8000000
      else if a < 1 then some 1500000
      else if a < 10 then some 250000
      else if a < 100 then some 300
      else if a < 1000 then some 1678
      else if a < 10000 then some 85
      else if a < 100000 then some 5
      else if a ≤ LARGEST_KNOWN_HOLDING then some 1
      else some 0 := by
  have j0 : jsRound TOTAL_ADDRESSES = 100000000 := by
    norm_num [jsRound, TOTAL_ADDRESSES]
  have j1 : jsRound (TOTAL_ADDRESSES * 0.08) = 8000000 := by
    norm_num [jsRound, TOTAL_ADDRESSES]
  have j2 : jsRound (TOTAL_ADDRESSES * 0.015) = 1500000 := by
    norm_num [jsRound, TOTAL_ADDRESSES]
  have j3 : jsRound (TOTAL_ADDRESSES * 0.0025) = 250000 := by
    norm_num [jsRound, TOTAL_ADDRESSES]
  have j4 : jsRound (TOTAL_ADDRESSES * 0.000003) = 300 := by
    norm_num [jsRound, TOTAL_ADDRESSES]
  have j5 : jsRound (1678 : ℚ) = 1678 := by norm_num [jsRound]
  have j6 : jsRound (85 : ℚ) = 85 := by norm_num [jsRound]
  have j7 : jsRound (5 : ℚ) = 5 := by norm_num [jsRound]
  have j8 : jsRound (1 : ℚ) = 1 := by norm_num [jsRound]
  simp only [calculateExclusivity, if_neg hmax, Bool.false_eq_true, if_false,
    j0, j1, j2, j3, j4, j5, j6, j7, j8]

/-- Case split: the ten reachable bands of calculateExclusivity in
GlobalPopulation mode, with the interval bounds and the value of each. -/
lemma exclusivity_global_cases (a : ℚ) (hm : ¬ a > MAX_BITCOIN_SUPPLY) :
    (a ≤ 0 ∧ calculateExclusivity a true = some 8000000000) ∨
    (0 < a ∧ a < 0.1 ∧ calculateExclusivity a true = some 640000000) ∨
    (0.1 ≤ a ∧ a < 1 ∧ calculateExclusivity a true = some 120000000) ∨
    (1 ≤ a ∧ a < 10 ∧ calculateExclusivity a true = some 20000000) ∨
    (10 ≤ a ∧ a < 100 ∧ calculateExclusivity a true = some 24000) ∨
    (100 ≤ a ∧ a < 1000 ∧ calculateExclusivity a true = some 4000) ∨
    (1000 ≤ a ∧ a < 10000 ∧ calculateExclusivity a true = some 800) ∨
    (10000 ≤ a ∧ a < 100000 ∧ calculateExclusivity a true = some 80) ∨
    (100000 ≤ a ∧ a ≤ LARGEST_KNOWN_HOLDING ∧
      calculateExclusivity a true = some 1) ∨
    (LARGEST_KNOWN_HOLDING < a ∧ calculateExclusivity a true = some 0) := by
  rw [exclusivity_global_eval a hm]
  rcases le_or_lt a 0 with h1 | h1
  · exact Or.inl ⟨h1, by rw [if_pos h1]⟩
  have n1 := not_le.mpr h1
  rcases lt_or_le a 0.1 with h2 | h2
  · exact Or.inr (Or.inl ⟨h1, h2, by rw [if_neg n1, if_pos h2]⟩)
  have n2 := not_lt.mpr h2
  rcases lt_or_le a 1 with h3 | h3
  · exact Or.inr (Or.inr (Or.inl ⟨h2, h3, by rw [if_neg n1, if_neg n2, if_pos h3]⟩))
  have n3 := not_lt.mpr h3
  rcases lt_or_le a 10 with h4 | h4
  · exact Or.inr (Or.inr (Or.inr (Or.inl ⟨h3, h4,
      by rw [if_neg n1, if_neg n2, if_neg n3, if_pos h4]⟩)))
  have n4 := not_lt.mpr h4
  rcases lt_or_le a 100 with h5 | h5
  · exact Or.inr (Or.inr (Or.inr (Or.inr (Or.inl ⟨h4, h5,
      by rw [if_neg n1, if_neg n2, if_neg n3, if_neg n4, if_pos h5]⟩))))
  have n5 := not_lt.mpr h5
  rcases lt_or_le a 1000 with h6 | h6
  · exact Or.inr (Or.inr (Or.inr (Or.inr (Or.inr (Or.inl ⟨h5, h6,
      by rw [if_neg n1, if_neg n2, if_neg n3, if_neg n4, if_neg n5, if_pos h6]⟩)))))
  have n6 := not_lt.mpr h6
  rcases lt_or_le a 10000 with h7 | h7
  · exact Or.inr (Or.inr (Or.inr (Or.inr (Or.inr (Or.inr (Or.inl ⟨h6, h7,
      by rw [if_neg n1, if_neg n2, if_neg n3, if_neg n4, if_neg n5, if_neg n6,
        if_pos h7]⟩))))))
  have n7 := not_lt.mpr h7
  rcases lt_or_le a 100000 with h8 | h8
  · exact Or.inr (Or.inr (Or.inr (Or.inr (Or.inr (Or.inr (Or.inr (Or.inl ⟨h7, h8,
      by rw [if_neg n1, if_neg n2, if_neg n3, if_neg n4, if_neg n5, if_neg n6,
        if_neg n7, if_pos h8]⟩)))))))
  have n8 := not_lt.mpr h8
  rcases le_or_lt a LARGEST_KNOWN_HOLDING with h9 | h9
  · exact Or.inr (Or.inr (Or.inr (Or.inr (Or.inr (Or.inr (Or.inr (Or.inr (Or.inl
      ⟨h8, h9, by rw [if_neg n1, if_neg n2, if_neg n3, if_neg n4, if_neg n5,
        if_neg n6, if_neg n7, if_neg n8, if_pos h9]⟩))))))))
  have n9 := not_le.mpr h9
  exact Or.inr (Or.inr (Or.inr (Or.inr (Or.inr (Or.inr (Or.inr (Or.inr (Or.inr
    ⟨h9, by rw [if_neg n1, if_neg n2, if_neg n3, if_neg n4, if_neg n5,
      if_neg n6, if_neg n7, if_neg n8, if_neg n9]⟩))))))))

/-- Case split: the ten reachable bands of calculateExclusivity in
CurrentAddresses mode, with the interval bounds and the value of each. -/
lemma exclusivity_current_cases (a : ℚ) (hm : ¬ a > MAX_BITCOIN_SUPPLY) :
    (a ≤ 0 ∧ calculateExclusivity a false = some 100000000) ∨
    (0 < a ∧ a < 0.1 ∧ calculateExclusivity a false = some 8000000) ∨
    (0.1 ≤ a ∧ a < 1 ∧ calculateExclusivity a false = some 1500000) ∨
    (1 ≤ a ∧ a < 10 ∧ calculateExclusivity a false = some 250000) ∨
    (10 ≤ a ∧ a < 100 ∧ calculateExclusivity a false = some 300) ∨
    (100 ≤ a ∧ a < 1000 ∧ calculateExclusivity a false = some 1678) ∨
    (1000 ≤ a ∧ a < 10000 ∧ calculateExclusivity a false = some 85) ∨
    (10000 ≤ a ∧ a < 100000 ∧ calculateExclusivity a false = some 5) ∨
    (100000 ≤ a ∧ a ≤ LARGEST_KNOWN_HOLDING ∧
      calculateExclusivity a false = some 1) ∨
    (LARGEST_KNOWN_HOLDING < a ∧ calculateExclusivity a false = some 0) := by
  rw [exclusivity_current_eval a hm]
  rcases le_or_lt a 0 with h1 | h1
  · exact Or.inl ⟨h1, by rw [if_pos h1]⟩
  have n1 := not_le.mpr h1
  rcases lt_or_le a 0.1 with h2 | h2
  · exact Or.inr (Or.inl ⟨h1, h2, by rw [if_neg n1, if_pos h2]⟩)
  have n2 := not_lt.mpr h2
  rcases lt_or_le a 1 with h3 | h3
  · exact Or.inr (Or.inr (Or.inl ⟨h2, h3, by rw [if_neg n1, if_neg n2, if_pos h3]⟩))
  have n3 := not_lt.mpr h3
  rcases lt_or_le a 10 with h4 | h4
  · exact Or.inr (Or.inr (Or.inr (Or.inl ⟨h3, h4,
      by rw [if_neg n1, if_neg n2, if_neg n3, if_pos h4]⟩)))
  have n4 := not_lt.mpr h4
  rcases lt_or_le a 100 with h5 | h5
  · exact Or.inr (Or.inr (Or.inr (Or.inr (Or.inl ⟨h4, h5,
      by rw [if_neg n1, if_neg n2, if_neg n3, if_neg n4, if_pos h5]⟩))))
  have n5 := not_lt.mpr h5
  rcases lt_or_le a 1000 with h6 | h6
  · exact Or.inr (Or.inr (Or.inr (Or.inr (Or.inr (Or.inl ⟨h5, h6,
      by rw [if_neg n1, if_neg n2, if_neg n3, if_neg n4, if_neg n5, if_pos h6]⟩)))))
  have n6 := not_lt.mpr h6
  rcases lt_or_le a 10000 with h7 | h7
  · exact Or.inr (Or.inr (Or.inr (Or.inr (Or.inr (Or.inr (Or.inl ⟨h6, h7,
      by rw [if_neg n1, if_neg n2, if_neg n3, if_neg n4, if_neg n5, if_neg n6,
        if_pos h7]⟩))))))
  have n7 := not_lt.mpr h7
  rcases lt_or_le a 100000 with h8 | h8
  · exact Or.inr (Or.inr (Or.inr (Or.inr (Or.inr (Or.inr (Or.inr (Or.inl ⟨h7, h8,
      by rw [if_neg n1, if_neg n2, if_neg n3, if_neg n4, if_neg n5, if_neg n6,
        if_neg n7, if_pos h8]⟩)))))))
  have n8 := not_lt.mpr h8
  rcases le_or_lt a LARGEST_KNOWN_HOLDING with h9 | h9
  · exact Or.inr (Or.inr (Or.inr (Or.inr (Or.inr (Or.inr (Or.inr (Or.inr (Or.inl
      ⟨h8, h9, by rw [if_neg n1, if_neg n2, if_neg n3, if_neg n4, if_neg n5,
        if_neg n6, if_neg n7, if_neg n8, if_pos h9]⟩))))))))
  have n9 := not_le.mpr h9
  exact Or.inr (Or.inr (Or.inr (Or.inr (Or.inr (Or.inr (Or.inr (Or.inr (Or.inr
    ⟨h9, by rw [if_neg n1, if_neg n2, if_neg n3, if_neg n4, if_neg n5,
      if_neg n6, if_neg n7, if_neg n8, if_neg n9]⟩))))))))

/-- C9: at amount 0 the estimator returns the full base population in
either mode: 100,000,000 current addresses or 8,000,000,000 people. -/
theorem exclusivity_at_zero_is_full_base :
    calculateExclusivity 0 false = some 100000000 ∧
    calculateExclusivity 0 true = some 8000000000 := by
  constructor <;>
    norm_num [calculateExclusivity, jsRound, MAX_BITCOIN_SUPPLY,
      GLOBAL_POPULATION, TOTAL_ADDRESSES]

set_option maxHeartbeats 2000000 in
/-- C1: on the validated domain, calculateExclusivity returns exactly the
value of the band table of section 4.2 of the spec, for either mode. -/
theorem exclusivity_matches_band_table (a : ℚ) (m : Bool)
    (h0 : 0 ≤ a) (h1 : a ≤ LARGEST_KNOWN_HOLDING) :
    calculateExclusivity a m = some (specRarityEstimate a m) := by
  have hmax : ¬ a > MAX_BITCOIN_SUPPLY := by
    rw [MAX_BITCOIN_SUPPLY]
    rw [LARGEST_KNOWN_HOLDING] at h1
    push_neg
    linarith
  cases m <;>
    simp only [calculateExclusivity, specRarityEstimate, if_neg hmax,
      Bool.false_eq_true, if_false, if_true, GLOBAL_POPULATION, TOTAL_ADDRESSES] <;>
    split_ifs <;>
    norm_num [jsRound]

/-- Witness for C1 at the concrete amount 1.5 in CurrentAddresses mode. -/
theorem exclusivity_matches_band_table_witness :
    calculateExclusivity 1.5 false = some (specRarityEstimate 1.5 false) :=
  exclusivity_matches_band_table 1.5 false (by norm_num)
    (by rw [LARGEST_KNOWN_HOLDING]; norm_num)

/-- C2 counterexample: in CurrentAddresses mode the estimator is not
monotonically non-increasing: at 50 BTC it reports 300 holders, yet at
500 BTC it reports 1678. -/
theorem exclusivity_not_monotone_current :
    (0 : ℚ) ≤ 50 ∧ (50 : ℚ) ≤ 500 ∧ (500 : ℚ) ≤ LARGEST_KNOWN_HOLDING ∧
    calculateExclusivity 50 false = some 300 ∧
    calculateExclusivity 500 false = some 1678 ∧
    ¬ ((1678 : ℤ) ≤ 300) := by
  refine ⟨by norm_num, by norm_num, by rw [LARGEST_KNOWN_HOLDING]; norm_num,
    ?_, ?_, by decide⟩ <;>
  norm_num [calculateExclusivity, jsRound, MAX_BITCOIN_SUPPLY,
    TOTAL_ADDRESSES, LARGEST_KNOWN_HOLDING]

set_option maxHeartbeats 2000000 in
/-- C2 amended: on the validated domain the estimator always returns a
non-negative integer in either mode, and in GlobalPopulation mode it is
monotonically non-increasing in the amount. -/
theorem exclusivity_nonneg_and_global_monotone (a1 a2 : ℚ) (m : Bool)
    (h0 : 0 ≤ a1) (h12 : a1 ≤ a2) (h2 : a2 ≤ LARGEST_KNOWN_HOLDING) :
    ∃ n1 n2 : ℤ, calculateExclusivity a1 m = some n1 ∧
      calculateExclusivity a2 m = some n2 ∧ 0 ≤ n1 ∧ 0 ≤ n2 ∧
      (m = true → n2 ≤ n1) := by
  have hL : LARGEST_KNOWN_HOLDING < MAX_BITCOIN_SUPPLY := by
    rw [LARGEST_KNOWN_HOLDING, MAX_BITCOIN_SUPPLY]; norm_num
  have hm1 : ¬ a1 > MAX_BITCOIN_SUPPLY := by push_neg; linarith
  have hm2 : ¬ a2 > MAX_BITCOIN_SUPPLY := by push_neg; linarith
  cases m
  case false =>
    rcases exclusivity_current_cases a1 hm1 with ⟨hA, e1⟩ | ⟨hA, hB, e1⟩ |
        ⟨hA, hB, e1⟩ | ⟨hA, hB, e1⟩ | ⟨hA, hB, e1⟩ | ⟨hA, hB, e1⟩ |
        ⟨hA, hB, e1⟩ | ⟨hA, hB, e1⟩ | ⟨hA, hB, e1⟩ | ⟨hA, e1⟩ <;>
      rcases exclusivity_current_cases a2 hm2 with ⟨hC, e2⟩ | ⟨hC, hD, e2⟩ |
        ⟨hC, hD, e2⟩ | ⟨hC, hD, e2⟩ | ⟨hC, hD, e2⟩ | ⟨hC, hD, e2⟩ |
        ⟨hC, hD, e2⟩ | ⟨hC, hD, e2⟩ | ⟨hC, hD, e2⟩ | ⟨hC, e2⟩ <;>
      exact ⟨_, _, e1, e2, by decide, by decide, by decide⟩
  case true =>
    rcases exclusivity_global_cases a1 hm1 with ⟨hA, e1⟩ | ⟨hA, hB, e1⟩ |
        ⟨hA, hB, e1⟩ | ⟨hA, hB, e1⟩ | ⟨hA, hB, e1⟩ | ⟨hA, hB, e1⟩ |
        ⟨hA, hB, e1⟩ | ⟨hA, hB, e1⟩ | ⟨hA, hB, e1⟩ | ⟨hA, e1⟩ <;>
      rcases exclusivity_global_cases a2 hm2 with ⟨hC, e2⟩ | ⟨hC, hD, e2⟩ |
        ⟨hC, hD, e2⟩ | ⟨hC, hD, e2⟩ | ⟨hC, hD, e2⟩ | ⟨hC, hD, e2⟩ |
        ⟨hC, hD, e2⟩ | ⟨hC, hD, e2⟩ | ⟨hC, hD, e2⟩ | ⟨hC, e2⟩ <;>
      first
        | exact ⟨_, _, e1, e2, by decide, by decide, fun _ => by decide⟩
        | (exfalso; linarith)

/-- Witness for the amended C2 at the concrete pair 1 and 2 in
GlobalPopulation mode. -/
theorem exclusivity_nonneg_and_global_monotone_witness :
    ∃ n1 n2 : ℤ, calculateExclusivity 1 true = some n1 ∧
      calculateExclusivity 2 true = some n2 ∧ 0 ≤ n1 ∧ 0 ≤ n2 ∧
      (true = true → n2 ≤ n1) :=
  exclusivity_nonneg_and_global_monotone 1 2 true (by norm_num) (by norm_num)
    (by rw [LARGEST_KNOWN_HOLDING]; norm_num)

/-- C10: the estimator is total: above the maximum supply it returns the
null sentinel from the guard before any band, and on the validated
domain the returned integer never exceeds the base population of the
selected mode. -/
theorem exclusivity_total_and_bounded :
    (∀ (a : ℚ) (m : Bool), a > MAX_BITCOIN_SUPPLY →
      calculateExclusivity a m = none) ∧
    (∀ (a : ℚ) (m : Bool), 0 ≤ a → a ≤ LARGEST_KNOWN_HOLDING →
      ∃ n : ℤ, calculateExclusivity a m = some n ∧
        n ≤ (if m then 8000000000 else 100000000)) := by
  constructor
  · intro a m h
    rw [calculateExclusivity, if_pos h]
  · intro a m h0 h1
    have hL : LARGEST_KNOWN_HOLDING < MAX_BITCOIN_SUPPLY := by
      rw [LARGEST_KNOWN_HOLDING, MAX_BITCOIN_SUPPLY]; norm_num
    have hm : ¬ a > MAX_BITCOIN_SUPPLY := by push_neg; linarith
    cases m
    case false =>
      rcases exclusivity_current_cases a hm with ⟨hA, e⟩ | ⟨hA, hB, e⟩ |
          ⟨hA, hB, e⟩ | ⟨hA, hB, e⟩ | ⟨hA, hB, e⟩ | ⟨hA, hB, e⟩ |
          ⟨hA, hB, e⟩ | ⟨hA, hB, e⟩ | ⟨hA, hB, e⟩ | ⟨hA, e⟩ <;>
        exact ⟨_, e, by decide⟩
    case true =>
      rcases exclusivity_global_cases a hm with ⟨hA, e⟩ | ⟨hA, hB, e⟩ |
          ⟨hA, hB, e⟩ | ⟨hA, hB, e⟩ | ⟨hA, hB, e⟩ | ⟨hA, hB, e⟩ |
          ⟨hA, hB, e⟩ | ⟨hA, hB, e⟩ | ⟨hA, hB, e⟩ | ⟨hA, e⟩ <;>
        exact ⟨_, e, by decide⟩

/-- Witness for C10 at the concrete amounts 21,000,001 and 1. -/
theorem exclusivity_total_and_bounded_witness :
    calculateExclusivity 21000001 true = none ∧
    ∃ n : ℤ, calculateExclusivity 1 false = some n ∧
      n ≤ (if false then (8000000000 : ℤ) else 100000000) :=
  ⟨exclusivity_total_and_bounded.1 21000001 true
      (by rw [gt_iff_lt, MAX_BITCOIN_SUPPLY]; norm_num),
   exclusivity_total_and_bounded.2 1 false (by norm_num)
      (by rw [LARGEST_KNOWN_HOLDING]; norm_num)⟩

/-- C3 counterexample: at 1.5 BTC in CurrentAddresses mode the estimator
returns 250,000 (the band of [1, 10) gives 0.0025 of the base), not the
1,500,000 the claim states. -/
theorem exclusivity_at_one_point_five_ne_claimed :
    calculateExclusivity 1.5 false = some 250000 ∧ (250000 : ℤ) ≠ 1500000 := by
  refine ⟨?_, by decide⟩
  norm_num [calculateExclusivity, jsRound, MAX_BITCOIN_SUPPLY,
    TOTAL_ADDRESSES, LARGEST_KNOWN_HOLDING]

/-- C3 amended: at 1.5 BTC in CurrentAddresses mode the estimator
returns round(100,000,000 times 0.0025) = 250,000, and the valuation
under the CURRENT scenario is 1.5 times (1e12 / 21,000,000) = 500000/7,
approximately 71,428.57 dollars. -/
theorem exclusivity_and_value_at_one_point_five :
    calculateExclusivity 1.5 false = some 250000 ∧
    calculateValueInScenario 1.5 1000000000000 = 500000 / 7 ∧
    |calculateValueInScenario 1.5 1000000000000 - 71428.57| < 0.01 := by
  refine ⟨?_, ?_, ?_⟩
  · norm_num [calculateExclusivity, jsRound, MAX_BITCOIN_SUPPLY,
      TOTAL_ADDRESSES, LARGEST_KNOWN_HOLDING]
  · simp only [calculateValueInScenario, MAX_BITCOIN_SUPPLY]
    norm_num
  · simp only [calculateValueInScenario, MAX_BITCOIN_SUPPLY]
    rw [abs_sub_lt_iff]
    constructor <;> norm_num

/-- C4: every amount strictly above the largest known holding and at
most the maximum supply produces the advisory banner citing the
1,100,000 threshold together with a zero-holders result, in either
mode. -/
theorem validator_exceeds_largest (btc : ℚ) (g : Bool)
    (h1 : btc > LARGEST_KNOWN_HOLDING) (h2 : btc ≤ MAX_BITCOIN_SUPPLY) :
    handleChange btc g =
      (some "No known addresses hold more than 1,100,000 BTC", some 0) := by
  have h0 : (0 : ℚ) ≤ btc := by
    rw [gt_iff_lt, LARGEST_KNOWN_HOLDING] at h1; linarith
  have hm : ¬ btc > MAX_BITCOIN_SUPPLY := not_lt.mpr h2
  rw [handleChange, if_pos h0, if_neg hm, if_pos h1]
  decide

/-- Witness for C4 at the concrete amount 1,500,000. -/
theorem validator_exceeds_largest_witness :
    handleChange 1500000 false =
      (some "No known addresses hold more than 1,100,000 BTC", some 0) :=
  validator_exceeds_largest 1500000 false
    (by rw [gt_iff_lt, LARGEST_KNOWN_HOLDING]; norm_num)
    (by rw [MAX_BITCOIN_SUPPLY]; norm_num)

/-- C5: every amount strictly above the maximum supply produces the
error banner citing the 21,000,000 maximum and no result, in either
mode. -/
theorem validator_exceeds_supply (btc : ℚ) (g : Bool)
    (h : btc > MAX_BITCOIN_SUPPLY) :
    handleChange btc g =
      (some "Invalid amount: exceeds maximum Bitcoin supply of 21,000,000 BTC",
       none) := by
  have h0 : (0 : ℚ) ≤ btc := by
    rw [gt_iff_lt, MAX_BITCOIN_SUPPLY] at h; linarith
  rw [handleChange, if_pos h0, if_pos h]
  decide

/-- Witness for C5 at the concrete amount 21,000,001. -/
theorem validator_exceeds_supply_witness :
    handleChange 21000001 false =
      (some "Invalid amount: exceeds maximum Bitcoin supply of 21,000,000 BTC",
       none) :=
  validator_exceeds_supply 21000001 false
    (by rw [gt_iff_lt, MAX_BITCOIN_SUPPLY]; norm_num)

/-- C6: for every amount and every market scenario, the valuation is
the amount times the implied per-coin price, the scenario cap divided by
the 21,000,000 maximum supply. -/
theorem value_in_scenario_formula (a : ℚ) (s : MarketScenario)
    (hs : s ∈ MARKET_SCENARIOS) :
    calculateValueInScenario a s.cap = a * (s.cap / MAX_BITCOIN_SUPPLY) := rfl

/-- Witness for C6 at amount 3 under the first scenario record. -/
theorem value_in_scenario_formula_witness :
    calculateValueInScenario 3 (1000000000000 : ℚ) =
      3 * ((1000000000000 : ℚ) / MAX_BITCOIN_SUPPLY) :=
  value_in_scenario_formula 3 ⟨1000000000000, "Current Bitcoin Market Cap"⟩
    (by simp [MARKET_SCENARIOS])

/-- C7: the valuation is linear in the amount: doubling the holding
doubles the value, exactly, for every market cap. -/
theorem value_linear_in_amount (a cap : ℚ) :
    calculateValueInScenario (2 * a) cap = 2 * calculateValueInScenario a cap := by
  simp only [calculateValueInScenario]
  ring

/-- C8: the USD formatter satisfies the three stated boundary cases, and
its thresholds are checked in the order 1e12, 1e9, 1e6 with first match
winning, rendering two decimals with the suffix T, B or M, while
amounts below 1e6 are rendered with the locale thousands separator, all
prefixed with a dollar sign. -/
theorem format_usd_thresholds :
    formatUSD 999999 = "$999,999" ∧
    formatUSD 1000000 = "$1.00M" ∧
    formatUSD 1000000000000 = "$1.00T" ∧
    (∀ x : ℚ, 1000000000000 ≤ x →
      formatUSD x = "$" ++ jsToFixedTwo (x / 1000000000000) ++ "T") ∧
    (∀ x : ℚ, 1000000000 ≤ x → x < 1000000000000 →
      formatUSD x = "$" ++ jsToFixedTwo (x / 1000000000) ++ "B") ∧
    (∀ x : ℚ, 1000000 ≤ x → x < 1000000000 →
      formatUSD x = "$" ++ jsToFixedTwo (x / 1000000) ++ "M") ∧
    (∀ x : ℚ, x < 1000000 → formatUSD x = "$" ++ jsToLocaleString x) := by
  refine ⟨?_, ?_, ?_, ?_, ?_, ?_, ?_⟩
  · rw [formatUSD, if_neg (by norm_num), if_neg (by norm_num),
      if_neg (by norm_num), jsToLocaleString]
    have h : jsRound ((999999 : ℚ) * 1000) = 999999000 := by norm_num [jsRound]
    rw [h]
    decide
  · rw [formatUSD, if_neg (by norm_num), if_neg (by norm_num),
      if_pos (by norm_num), jsToFixedTwo]
    have h : jsRound ((1000000 : ℚ) / 1000000 * 100) = 100 := by
      norm_num [jsRound]
    rw [h]
    decide
  · rw [formatUSD, if_pos (by norm_num), jsToFixedTwo]
    have h : jsRound ((1000000000000 : ℚ) / 1000000000000 * 100) = 100 := by
      norm_num [jsRound]
    rw [h]
    decide
  · intro x hx
    rw [formatUSD, if_pos hx]
  · intro x h1 h2
    rw [formatUSD, if_neg (not_le.mpr h2), if_pos h1]
  · intro x h1 h2
    rw [formatUSD, if_neg (by push_neg; linarith), if_neg (not_le.mpr h2),
      if_pos h1]
  · intro x h
    rw [formatUSD, if_neg (by push_neg; linarith), if_neg (by push_neg; linarith),
      if_neg (not_le.mpr h)]

/-- Witness for C8 applying the trillion-tier shape at 2e12. -/
theorem format_usd_thresholds_witness :
    formatUSD 2000000000000 =
      "$" ++ jsToFixedTwo ((2000000000000 : ℚ) / 1000000000000) ++ "T" :=
  format_usd_thresholds.2.2.2.1 2000000000000 (by norm_num)

/-- Witness for C7 at amount 3 and cap 5. -/
theorem value_linear_in_amount_witness :
    calculateValueInScenario (2 * 3) 5 = 2 * calculateValueInScenario 3 5 :=
  value_linear_in_amount 3 5
